import Mathlib

/-!
Verification of the Check Point management API client (`APIClient.go`).

The definitions below are a shallow embedding of the client code: pure
fragments become Lean functions, loops over fuel, IO oracles (the HTTP
server, the certificate probe, the interactive prompt, the fingerprint
file) become explicit parameters or state fields.  Machine-level concerns
(sockets, sleeping, locking) are dropped; the claims under study are about
the sequential data flow of the code.
-/

namespace ChkpApi

/-! Constants (from the `const` block of `APIClient.go`) -/

def InProgress : String := "in progress"

def Limit : Nat := 50

def WebContext : String := "web_api"

def AutoPublishBatchSize : Nat := 100

/-! Response model

`APIResponse` lives in `APIResponse.go`, which is not among the provided
sources; the structure below is modelled from the spec ("outcome of one
call - success flag, HTTP status code, decoded payload, and an error
message").  The payload keeps exactly the fields the client code reads:
`tasks`, `sid`, `api-server-version`, `total`, `to`, the container lists of
`genApiQuery`, and a `message` field.  Container objects are opaque and
represented by `Nat` identifiers. -/

structure TaskEntry where
  status : Option String
deriving DecidableEq

structure RespData where
  tasks : Option (List TaskEntry) := none
  sid : Option String := none
  apiServerVersion : Option String := none
  total : Option Nat := none
  toCursor : Option Nat := none
  containers : List (String × List Nat) := []
  message : Option String := none
deriving DecidableEq

structure APIResponse where
  Success : Bool
  StatusCode : String
  ErrorMsg : String
  data : RespData
deriving DecidableEq

/-- The Go zero value `APIResponse{}`. -/
def APIResponse.zero : APIResponse := ⟨false, "", "", {}⟩

/-- Modelled from the spec: `buildGenericErrMsg` is defined in
`APIResponse.go`, which is not among the provided sources.  Per the spec it
"synthesizes a generic message from the status code and any
message/warnings/errors fields found in the payload". -/
def buildGenericErrMsg (r : APIResponse) : String :=
  "failed to execute API call. Status: " ++ r.StatusCode ++
    (match r.data.message with
     | some m => ". Message: " ++ m
     | none => "")

/-! Auto-publish coordinator (`apiCall`, lines 411-494)

A sequential run of external (non-internal) calls through `apiCall` with a
positive `autoPublishBatchSize`.  Each call: admission (increment
`totalCallsCtr` when `totalCallsCtr+1 <= batchSize` and no publish is in
progress; otherwise the caller busy-waits, which in a sequential run means
it is stuck, modelled as `none`), then after completion the publish check
(`totalCallsCtr > 0 && totalCallsCtr % batchSize == 0 && !duringPublish`),
issuing the internal publish call and resetting `totalCallsCtr` to 0 and
`duringPublish` to false regardless of the publish call's success (`pubOk`
is deliberately unused: lines 483-488 only differ in logging). -/

structure PubState where
  totalCalls : Nat
  publishCount : Nat
  duringPublish : Bool
deriving DecidableEq

def publishGateStep (n : Nat) (pubOk : Bool) (s : PubState) : Option (PubState × Bool) :=
  if s.totalCalls + 1 ≤ n ∧ s.duringPublish = false then
    if 0 < s.totalCalls + 1 ∧ (s.totalCalls + 1) % n = 0 ∧ s.duringPublish = false then
      some (⟨0, s.publishCount + 1, false⟩, true)
    else
      some (⟨s.totalCalls + 1, s.publishCount, s.duringPublish⟩, false)
  else
    none

def publishGateRun (n : Nat) (pubOk : Nat → Bool) : Nat → Option PubState
  | 0 => some ⟨0, 0, false⟩
  | k + 1 =>
    match publishGateRun n pubOk k with
    | none => none
    | some s =>
      match publishGateStep n (pubOk k) s with
      | none => none
      | some r => some r.1

/-- Claim C1: with auto-publish batch size `n > 0`, a sequence of `k`
completed external calls through `apiCall` issues exactly `k / n` publish
calls (one per `n` completed calls), the total-calls counter afterwards is
`k % n` - in particular it is `0` immediately after each publish cycle -
and this holds for every pattern `pubOk` of publish-call successes and
failures. -/
theorem autoPublish_once_per_batch (n : Nat) (pubOk : Nat → Bool) (hn : 0 < n) (k : Nat) :
    publishGateRun n pubOk k = some ⟨k % n, k / n, false⟩ := by
  induction k with
  | zero => simp [publishGateRun]
  | succ k ih =>
    have he : k % n < n := Nat.mod_lt _ hn
    have hdm : n * (k / n) + k % n = k := Nat.div_add_mod k n
    rcases Nat.lt_or_ge (k % n + 1) n with hlt | hge
    · have h1 : (k + 1) % n = k % n + 1 := by
        conv_lhs => rw [← hdm, Nat.add_assoc]
        rw [Nat.mul_add_mod]
        exact Nat.mod_eq_of_lt hlt
      have h2 : (k + 1) / n = k / n := by
        conv_lhs => rw [← hdm, Nat.add_assoc]
        rw [Nat.mul_add_div hn, Nat.div_eq_of_lt hlt, Nat.add_zero]
      have hstep : publishGateStep n (pubOk k) ⟨k % n, k / n, false⟩ =
          some (⟨k % n + 1, k / n, false⟩, false) := by
        unfold publishGateStep
        rw [if_pos ⟨he, rfl⟩, if_neg]
        rintro ⟨-, hz, -⟩
        rw [Nat.mod_eq_of_lt hlt] at hz
        exact Nat.succ_ne_zero _ hz
      simp only [publishGateRun, ih, hstep, h1, h2]
    · have heq : k % n + 1 = n := Nat.le_antisymm he hge
      have h1 : (k + 1) % n = 0 := by
        conv_lhs => rw [← hdm, Nat.add_assoc]
        rw [Nat.mul_add_mod, heq, Nat.mod_self]
      have h2 : (k + 1) / n = k / n + 1 := by
        conv_lhs => rw [← hdm, Nat.add_assoc]
        rw [Nat.mul_add_div hn, heq, Nat.div_self hn]
      have hstep : publishGateStep n (pubOk k) ⟨k % n, k / n, false⟩ =
          some (⟨0, k / n + 1, false⟩, true) := by
        unfold publishGateStep
        rw [if_pos ⟨he, rfl⟩, if_pos ⟨Nat.succ_pos _, by rw [heq]; exact Nat.mod_self n, rfl⟩]
      simp only [publishGateRun, ih, hstep, h1, h2]

theorem autoPublish_once_per_batch_witness :
    0 < 2 ∧ publishGateRun 2 (fun _ => false) 5 = some ⟨1, 2, false⟩ :=
  ⟨by decide, autoPublish_once_per_batch 2 (fun _ => false) (by decide) 5⟩

/-! Task poller (`waitForTask`, `waitForTasks`, `checkTasksStatus`, lines 682-787)

The `show-task` HTTP exchanges are an oracle `poll : Nat → Except String
APIResponse` indexed by how many polls have been issued so far; a transport
error is `Except.error`.  Loops take fuel; `WftOutcome.running` means the
loop had not exited within the given fuel. -/

/-- Line 779: `status == "failed" || status == "partially succeeded"`. -/
def taskFailedStatus (task : TaskEntry) : Bool :=
  task.status == some "failed" || task.status == some "partially succeeded"

/-- The function `checkTasksStatus` (lines 776-787): if any sub-task failed or partially
succeeded, downgrade the response (`setSuccessStatus(false)`, clear the
status code, set the generic error message). -/
def checkTasksStatus (taskResult : APIResponse) : APIResponse :=
  match taskResult.data.tasks with
  | none => taskResult
  | some tasks =>
    if tasks.any taskFailedStatus then
      { taskResult with
        Success := false
        StatusCode := ""
        ErrorMsg := buildGenericErrMsg { taskResult with Success := false, StatusCode := "" } }
    else taskResult

/-- Line 720: `taskMap["status"] != nil && taskMap["status"].(string) != InProgress`. -/
def taskCompletedEntry (task : TaskEntry) : Bool :=
  task.status != none && task.status != some InProgress

/-- The `completedTasks` counter of lines 715-723. -/
def countCompleted (tasks : List TaskEntry) : Nat :=
  (tasks.filter taskCompletedEntry).length

inductive WftOutcome where
  | done (r : APIResponse)
  | err (e : String)
  | running
deriving DecidableEq

/-- The inner retry loop of `waitForTask` (lines 697-713):
`for taskResult.Success == false { if attemptsCounter < 5 { retry } else
{ print error } }`.  Note the `else` branch only prints: the loop state is
unchanged, so the loop spins forever once five retries are exhausted. -/
def showTaskRetry (poll : Nat → Except String APIResponse) (i attempts : Nat)
    (taskResult : APIResponse) : Nat → WftOutcome × Nat
  | 0 => (WftOutcome.running, i)
  | fuel + 1 =>
    if taskResult.Success = false then
      if attempts < 5 then
        match poll i with
        | Except.error e => (WftOutcome.err e, i + 1)
        | Except.ok r => showTaskRetry poll (i + 1) (attempts + 1) r fuel
      else
        showTaskRetry poll i attempts taskResult fuel
    else (WftOutcome.done taskResult, i)

/-- The outer loop of `waitForTask` (lines 682-736): poll, run the retry
loop, count completed sub-tasks, finish through `checkTasksStatus` once
every sub-task has left "in progress". -/
def waitForTask (poll : Nat → Except String APIResponse) (i : Nat) : Nat → WftOutcome
  | 0 => WftOutcome.running
  | fuel + 1 =>
    match poll i with
    | Except.error e => WftOutcome.err e
    | Except.ok r0 =>
      match showTaskRetry poll (i + 1) 0 r0 fuel with
      | (WftOutcome.done taskResult, next) =>
        if countCompleted (taskResult.data.tasks.getD []) = (taskResult.data.tasks.getD []).length then
          WftOutcome.done (checkTasksStatus taskResult)
        else waitForTask poll next fuel
      | (WftOutcome.err e, _) => WftOutcome.err e
      | (WftOutcome.running, _) => WftOutcome.running

/-- The function `waitForTasks` (lines 745-767): waits for each task individually (the
per-task results are discarded, line 751), then issues one combined
`show-task` (`finalShowTask`); a transport error there is only printed and
the Go zero-value response is classified instead. -/
def waitForTasks (taskPolls : List (Nat → Except String APIResponse)) (fuel : Nat)
    (finalShowTask : Except String APIResponse) : APIResponse :=
  let subResults := taskPolls.map fun poll => waitForTask poll 0 fuel
  let taskRes :=
    match finalShowTask with
    | Except.error _ => APIResponse.zero
    | Except.ok r => r
  let _ := subResults
  checkTasksStatus taskRes

/-- A persistently failing `show-task` response. -/
def failingPollResp : APIResponse := { Success := false, StatusCode := "500", ErrorMsg := "", data := {} }

/-- Claim C2: the retry loop of `waitForTask` never exits once the poll
keeps returning unsuccessful results: for every oracle whose polls all
come back with `Success = false` (and no transport error), the loop is
still running after any amount of fuel.  The code therefore never "gives
up and returns the last unsuccessful poll result": it diverges. -/
theorem showTaskRetry_never_gives_up (poll : Nat → Except String APIResponse)
    (hpoll : ∀ j, ∃ r, poll j = Except.ok r ∧ r.Success = false) (fuel : Nat) :
    ∀ i attempts (taskResult : APIResponse), taskResult.Success = false →
      (showTaskRetry poll i attempts taskResult fuel).1 = WftOutcome.running := by
  induction fuel with
  | zero => intro i a r hr; rfl
  | succ fuel ih =>
    intro i a r hr
    rw [showTaskRetry, if_pos hr]
    by_cases ha : a < 5
    · rw [if_pos ha]
      obtain ⟨r2, hp, hs⟩ := hpoll i
      rw [hp]
      exact ih (i + 1) (a + 1) r2 hs
    · rw [if_neg ha]
      exact ih i a r hr

theorem showTaskRetry_never_gives_up_witness :
    failingPollResp.Success = false ∧
      (showTaskRetry (fun _ => Except.ok failingPollResp) 0 0 failingPollResp 100).1 =
        WftOutcome.running :=
  ⟨rfl, showTaskRetry_never_gives_up (fun _ => Except.ok failingPollResp)
    (fun _ => ⟨failingPollResp, rfl, rfl⟩) 100 0 0 failingPollResp rfl⟩

theorem length_filter_eq_length_iff {α : Type} (p : α → Bool) (l : List α) :
    (l.filter p).length = l.length ↔ ∀ a ∈ l, p a = true := by
  induction l with
  | nil => simp
  | cons x xs ih =>
    by_cases hx : p x = true
    · simp [List.filter_cons, hx, ih]
    · have hlen : (xs.filter p).length ≤ xs.length := xs.length_filter_le p
      rw [List.filter_cons, if_neg hx, List.length_cons]
      constructor
      · intro h; exfalso; omega
      · intro h
        exact absurd (h x (List.mem_cons_self x xs)) hx

theorem taskCompletedEntry_iff (t : TaskEntry) (ht : t.status.isSome) :
    taskCompletedEntry t = true ↔ t.status ≠ some InProgress := by
  rcases t with ⟨st⟩
  rcases st with _ | s
  · simp at ht
  · simp [taskCompletedEntry]

/-- First-poll state: one sub-task succeeded, one still in progress. -/
def tasksFirstPoll : List TaskEntry := [⟨some "succeeded"⟩, ⟨some InProgress⟩]

/-- Second-poll state: both sub-tasks succeeded. -/
def tasksSecondPoll : List TaskEntry := [⟨some "succeeded"⟩, ⟨some "succeeded"⟩]

def respFirstPoll : APIResponse :=
  { Success := true, StatusCode := "200", ErrorMsg := "", data := { tasks := some tasksFirstPoll } }

def respSecondPoll : APIResponse :=
  { Success := true, StatusCode := "200", ErrorMsg := "", data := { tasks := some tasksSecondPoll } }

def pollTwoPhases (j : Nat) : Except String APIResponse :=
  if j = 0 then Except.ok respFirstPoll else Except.ok respSecondPoll

/-- Claim C6: `waitForTask` considers a task complete exactly when every
sub-task's status string is no longer `"in progress"` (exact string
comparison); concretely, with sub-task statuses `["succeeded",
"in progress"]` the completion count falls short and polling continues,
and once the second sub-task reports `"succeeded"` the function returns
the successful response. -/
theorem waitForTask_completion_condition :
    (∀ tasks : List TaskEntry, (∀ t ∈ tasks, t.status.isSome) →
      (countCompleted tasks = tasks.length ↔ ∀ t ∈ tasks, t.status ≠ some InProgress)) ∧
    countCompleted tasksFirstPoll ≠ tasksFirstPoll.length ∧
    waitForTask pollTwoPhases 0 3 = WftOutcome.done respSecondPoll ∧
    respSecondPoll.Success = true := by
  refine ⟨?_, by decide, by decide, rfl⟩
  intro tasks hsome
  rw [countCompleted, length_filter_eq_length_iff]
  constructor
  · intro h t ht
    exact (taskCompletedEntry_iff t (hsome t ht)).mp (h t ht)
  · intro h t ht
    exact (taskCompletedEntry_iff t (hsome t ht)).mpr (h t ht)

theorem waitForTask_completion_condition_witness :
    countCompleted tasksSecondPoll = tasksSecondPoll.length :=
  (waitForTask_completion_condition.1 tasksSecondPoll (by decide)).mpr (by decide)

def respSucceededFailed : APIResponse :=
  { Success := true, StatusCode := "200", ErrorMsg := "",
    data := { tasks := some [⟨some "succeeded"⟩, ⟨some "failed"⟩] } }

def pollSucceededFailed (j : Nat) : Except String APIResponse := Except.ok respSucceededFailed

def downgradedResp : APIResponse := checkTasksStatus respSucceededFailed

/-- Claim C7: once all sub-tasks have left "in progress", a sub-task with
status `"failed"` or `"partially succeeded"` downgrades the overall
response to `Success = false` with the generic error message (even though
the HTTP transaction succeeded, i.e. regardless of the incoming success
flag), while a task list without such statuses leaves the response
unchanged; `waitForTasks` classifies its final combined response the same
way, and a concrete `waitForTask` run over sub-tasks `[succeeded, failed]`
returns the downgraded response despite the HTTP-successful poll. -/
theorem checkTasksStatus_reclassifies (r : APIResponse) (tasks : List TaskEntry)
    (htasks : r.data.tasks = some tasks) :
    (tasks.any taskFailedStatus = true →
      (checkTasksStatus r).Success = false ∧
      (checkTasksStatus r).ErrorMsg =
        buildGenericErrMsg { r with Success := false, StatusCode := "" }) ∧
    (tasks.any taskFailedStatus = false → checkTasksStatus r = r) ∧
    (∀ taskPolls fuel fr, waitForTasks taskPolls fuel (Except.ok fr) = checkTasksStatus fr) ∧
    waitForTask pollSucceededFailed 0 2 = WftOutcome.done downgradedResp ∧
    downgradedResp.Success = false ∧
    respSucceededFailed.Success = true := by
  refine ⟨?_, ?_, fun _ _ _ => rfl, by decide, by decide, rfl⟩
  · intro hany
    simp [checkTasksStatus, htasks, hany]
  · intro hany
    simp [checkTasksStatus, htasks, hany]

theorem checkTasksStatus_reclassifies_witness :
    (checkTasksStatus respSucceededFailed).Success = false :=
  ((checkTasksStatus_reclassifies respSucceededFailed [⟨some "succeeded"⟩, ⟨some "failed"⟩]
    rfl).1 (by decide)).1

/-! Pagination engine (`genApiQuery`, lines 582-669)

The server is an oracle `server : Nat → Except String APIResponse` mapping
the round index to the transport result of that round's `apiCall`.  Each
issued call's payload fields (`limit`, `offset`, `details-level`, lines
601-603 and 655-657) are recorded as a `QueryCall`.  `os.Exit(1)` (line
629) is the outcome `QueryOutcome.exited 1`; a transport error inside the
loop (lines 660-664) sets `err_output` and returns `nil`, the outcome
`QueryOutcome.errorOut`. -/

structure QueryCall where
  limit : Nat
  offset : Nat
  detailsLevel : String
deriving DecidableEq

inductive QueryOutcome where
  | ok (responses : List APIResponse)
  | exited (code : Nat)
  | errorOut (e : String)
  | outOfFuel
deriving DecidableEq

/-- Go map update used for `apiRes.data[containerKey] = ...` and for the
login credentials map. -/
def mapSet {α : Type} (m : List (String × α)) (key : String) (v : α) : List (String × α) :=
  match m with
  | [] => [(key, v)]
  | (k, w) :: rest => if k = key then (key, v) :: rest else (k, w) :: mapSet rest key v

def getContainer (d : RespData) (key : String) : Option (List Nat) :=
  d.containers.lookup key

/-- Line 651: `totalObjects == receivedObjects`, Go interface equality,
where `receivedObjects` was replaced by `float64(0)` when `data["to"]` was
nil (lines 635-637): a nil `total` never equals the (numeric)
`receivedObjects`. -/
def queryStop (totalObjects : Option Nat) (receivedObjects : Option Nat) : Bool :=
  match totalObjects with
  | none => false
  | some t => t == receivedObjects.getD 0

/-- Lines 640-644: append this round's objects of each container key to the
running accumulator. -/
def accumulateContainers (containerKeys : List String) (allObjects : String → List Nat)
    (d : RespData) : String → List Nat :=
  fun key =>
    if containerKeys.contains key then allObjects key ++ (getContainer d key).getD []
    else allObjects key

/-- Line 645: `apiRes.data[containerKey] = allObjects[containerKey]`. -/
def rewriteContainers (containerKeys : List String) (allObjects : String → List Nat)
    (d : RespData) : RespData :=
  containerKeys.foldl (fun acc key => { acc with containers := mapSet acc.containers key (allObjects key) }) d

/-- One round's accumulation (lines 640-647): fold this round's objects
into the accumulator and rewrite the response's container fields to the
accumulated lists. -/
def queryAccumulate (containerKeys : List String) (allObjects : String → List Nat)
    (apiRes : APIResponse) : APIResponse :=
  { apiRes with
    data := rewriteContainers containerKeys
      (accumulateContainers containerKeys allObjects apiRes.data) apiRes.data }

/-- The `for !finished` loop of lines 626-665. -/
def genApiQueryLoop (server : Nat → Except String APIResponse) (detailsLevel : String)
    (containerKeys : List String) (allObjects : String → List Nat) (apiRes : APIResponse)
    (iterations : Nat) : Nat → List QueryCall × QueryOutcome
  | 0 => ([], QueryOutcome.outOfFuel)
  | fuel + 1 =>
    if apiRes.Success = false then ([], QueryOutcome.exited 1)
    else
      if queryStop apiRes.data.total apiRes.data.toCursor then
        ([], QueryOutcome.ok [queryAccumulate containerKeys allObjects apiRes])
      else
        match server (iterations + 1) with
        | Except.error e =>
          ([⟨Limit, (iterations + 1) * Limit, detailsLevel⟩], QueryOutcome.errorOut e)
        | Except.ok nextRes =>
          (⟨Limit, (iterations + 1) * Limit, detailsLevel⟩ ::
              (genApiQueryLoop server detailsLevel containerKeys
                (accumulateContainers containerKeys allObjects apiRes.data) nextRes
                (iterations + 1) fuel).1,
            match (genApiQueryLoop server detailsLevel containerKeys
                (accumulateContainers containerKeys allObjects apiRes.data) nextRes
                (iterations + 1) fuel).2 with
            | QueryOutcome.ok rs =>
              QueryOutcome.ok (queryAccumulate containerKeys allObjects apiRes :: rs)
            | o => o)

/-- Lines 589-591: default container key. -/
def genApiQueryKeys (containerKeys : List String) : List String :=
  if containerKeys.isEmpty then ["objects"] else containerKeys

/-- Lines 604-608: the first round's response; a transport error there is
only printed and the Go zero-value response is used. -/
def genApiQueryFirst (server : Nat → Except String APIResponse) : APIResponse :=
  match server 0 with
  | Except.error _ => APIResponse.zero
  | Except.ok r => r

/-- The function `genApiQuery` (lines 582-669): first call at offset 0; when some
requested container key is absent from the first response the query is
finished after one round (lines 612-624), otherwise the pagination loop
runs. -/
def genApiQuery (server : Nat → Except String APIResponse) (detailsLevel : String)
    (containerKeys : List String) (fuel : Nat) : List QueryCall × QueryOutcome :=
  if (genApiQueryKeys containerKeys).any
      (fun key => (getContainer (genApiQueryFirst server).data key).isNone) then
    ([⟨Limit, 0, detailsLevel⟩], QueryOutcome.ok [genApiQueryFirst server])
  else
    (⟨Limit, 0, detailsLevel⟩ ::
        (genApiQueryLoop server detailsLevel (genApiQueryKeys containerKeys) (fun _ => [])
          (genApiQueryFirst server) 0 fuel).1,
      (genApiQueryLoop server detailsLevel (genApiQueryKeys containerKeys) (fun _ => [])
        (genApiQueryFirst server) 0 fuel).2)

/-- Lines 446-448 of `apiCall`: a response with `Success = false` gets the
generic error message and is then returned to the caller as a value. -/
def apiCallFinishResponse (res : APIResponse) : APIResponse :=
  if res.Success = false then { res with ErrorMsg := buildGenericErrMsg res } else res

/-- A server-reported failure whose payload still carries the container key. -/
def failingWithKeyResp : APIResponse :=
  { Success := false, StatusCode := "404", ErrorMsg := "",
    data := { containers := [("objects", [])] } }

def serverFailingWithKey (j : Nat) : Except String APIResponse := Except.ok failingWithKeyResp

/-- Counterexample to claim C3: a protocol failure (server-reported
failure, `Success = false`) whose data still contains the container key
makes the pagination engine abort the whole process with exit code 1
(`os.Exit(1)`, line 629) instead of propagating the failure via a return
value. -/
theorem genApiQuery_aborts_process :
    (genApiQuery serverFailingWithKey "standard" ["objects"] 5).2 = QueryOutcome.exited 1 := by
  decide

/-- Claim C3 (amended): `apiCall` represents a protocol failure as a
returned response object with `success=false` carrying the generic error
message; the pagination engine returns a first-round failure that lacks
the container key as a value, but whenever a response entering the
pagination loop has `success=false` it aborts the process with exit code
1 rather than returning. -/
theorem genApiQuery_failure_propagation (server : Nat → Except String APIResponse)
    (detailsLevel : String) (containerKeys : List String) (fuel : Nat) (hf : 0 < fuel) :
    (∀ res : APIResponse, res.Success = false →
      apiCallFinishResponse res = { res with ErrorMsg := buildGenericErrMsg res } ∧
      (apiCallFinishResponse res).Success = false) ∧
    ((genApiQueryKeys containerKeys).any
        (fun key => (getContainer (genApiQueryFirst server).data key).isNone) = true →
      (genApiQuery server detailsLevel containerKeys fuel).2 =
        QueryOutcome.ok [genApiQueryFirst server]) ∧
    ((genApiQueryKeys containerKeys).any
        (fun key => (getContainer (genApiQueryFirst server).data key).isNone) = false →
      (genApiQueryFirst server).Success = false →
      (genApiQuery server detailsLevel containerKeys fuel).2 = QueryOutcome.exited 1) := by
  refine ⟨?_, ?_, ?_⟩
  · intro res hres
    constructor
    · simp [apiCallFinishResponse, hres]
    · simp [apiCallFinishResponse, hres]
  · intro h
    simp [genApiQuery, h]
  · intro h hs
    obtain ⟨f, rfl⟩ : ∃ f, fuel = f + 1 := ⟨fuel - 1, by omega⟩
    simp [genApiQuery, h, genApiQueryLoop, hs]

theorem genApiQuery_failure_propagation_witness :
    (genApiQuery serverFailingWithKey "standard" ["missing"] 5).2 =
      QueryOutcome.ok [genApiQueryFirst serverFailingWithKey] :=
  (genApiQuery_failure_propagation serverFailingWithKey "standard" ["missing"] 5
    (by decide)).2.1 (by decide)

/-- A simulated server with 120 objects delivered in batches of 50. -/
def page120 (i : Nat) : APIResponse :=
  { Success := true, StatusCode := "200", ErrorMsg := "",
    data := { total := some 120, toCursor := some (min ((i + 1) * 50) 120),
              containers := [("objects", List.range' (i * 50) (min 50 (120 - i * 50)))] } }

def server120 (i : Nat) : Except String APIResponse := Except.ok (page120 i)

def queryRoundsCount : QueryOutcome → Nat
  | QueryOutcome.ok rs => rs.length
  | _ => 0

def queryFinalObjectCount (o : QueryOutcome) (key : String) : Nat :=
  match o with
  | QueryOutcome.ok rs =>
    match rs.getLast? with
    | some r => ((getContainer r.data key).getD []).length
    | none => 0
  | _ => 0

/-- The call sequence `genApiQuery` is expected to issue: `m` calls with
`limit = Limit` and offsets `start * Limit, (start+1) * Limit, ...`. -/
def expectedCalls (detailsLevel : String) (start m : Nat) : List QueryCall :=
  match m with
  | 0 => []
  | m + 1 => ⟨Limit, start * Limit, detailsLevel⟩ :: expectedCalls detailsLevel (start + 1) m

theorem expectedCalls_get (detailsLevel : String) :
    ∀ m start j (hj : j < (expectedCalls detailsLevel start m).length),
      (expectedCalls detailsLevel start m).get ⟨j, hj⟩ =
        ⟨Limit, (start + j) * Limit, detailsLevel⟩ := by
  intro m
  induction m with
  | zero => intro start j hj; exact absurd hj (by simp [expectedCalls])
  | succ m ih =>
    intro start j hj
    match j with
    | 0 => simp [expectedCalls]
    | j + 1 =>
      have hj2 : j < (expectedCalls detailsLevel (start + 1) m).length := by
        simpa [expectedCalls] using hj
      have := ih (start + 1) j hj2
      simp only [expectedCalls, List.get_cons_succ]
      rw [this]
      congr 2
      omega

theorem genApiQueryLoop_calls_shape (server : Nat → Except String APIResponse)
    (detailsLevel : String) (containerKeys : List String) :
    ∀ fuel (allObjects : String → List Nat) (apiRes : APIResponse) (iterations : Nat), ∃ m,
      (genApiQueryLoop server detailsLevel containerKeys allObjects apiRes iterations fuel).1 =
        expectedCalls detailsLevel (iterations + 1) m := by
  intro fuel
  induction fuel with
  | zero => intro allObjects apiRes iterations; exact ⟨0, rfl⟩
  | succ fuel ih =>
    intro allObjects apiRes iterations
    by_cases hs : apiRes.Success = false
    · exact ⟨0, by simp [genApiQueryLoop, hs, expectedCalls]⟩
    · by_cases hstop : queryStop apiRes.data.total apiRes.data.toCursor = true
      · exact ⟨0, by simp [genApiQueryLoop, hs, hstop, expectedCalls]⟩
      · rcases hsrv : server (iterations + 1) with e | nextRes
        · exact ⟨1, by simp [genApiQueryLoop, hs, hstop, hsrv, expectedCalls]⟩
        · obtain ⟨m, hm⟩ := ih (accumulateContainers containerKeys allObjects apiRes.data)
            nextRes (iterations + 1)
          refine ⟨m + 1, ?_⟩
          simp [genApiQueryLoop, hs, hstop, hsrv, expectedCalls, hm]

/-- Claim C8: every pagination round is issued with `limit = 50` and
`offset = round-index * 50` (the trace is an `expectedCalls` sequence
starting at offset 0, whose `j`-th entry is `⟨Limit, j * Limit, _⟩`); over
the simulated 120-object server the engine performs exactly 3 rounds at
offsets 0, 50, 100 (stopping when the response's `total` equals its `to`
cursor) and the final accumulated object list for the container key has
exactly 120 objects. -/
theorem genApiQuery_rounds :
    (∀ server detailsLevel containerKeys fuel, ∃ m,
      (genApiQuery server detailsLevel containerKeys fuel).1 =
        expectedCalls detailsLevel 0 m) ∧
    (∀ detailsLevel m j (hj : j < (expectedCalls detailsLevel 0 m).length),
      (expectedCalls detailsLevel 0 m).get ⟨j, hj⟩ = ⟨Limit, j * Limit, detailsLevel⟩) ∧
    (genApiQuery server120 "standard" [] 10).1 =
      [⟨50, 0, "standard"⟩, ⟨50, 50, "standard"⟩, ⟨50, 100, "standard"⟩] ∧
    queryRoundsCount (genApiQuery server120 "standard" [] 10).2 = 3 ∧
    queryFinalObjectCount (genApiQuery server120 "standard" [] 10).2 "objects" = 120 := by
  refine ⟨?_, ?_, by decide, by decide, by decide⟩
  · intro server detailsLevel containerKeys fuel
    by_cases h : (genApiQueryKeys containerKeys).any
        (fun key => (getContainer (genApiQueryFirst server).data key).isNone) = true
    · exact ⟨1, by simp [genApiQuery, h, expectedCalls]⟩
    · obtain ⟨m, hm⟩ := genApiQueryLoop_calls_shape server detailsLevel
        (genApiQueryKeys containerKeys) fuel (fun _ => []) (genApiQueryFirst server) 0
      exact ⟨m + 1, by simp [genApiQuery, h, expectedCalls, hm]⟩
  · intro detailsLevel m j hj
    rw [expectedCalls_get detailsLevel m 0 j hj]
    congr 2
    omega

theorem genApiQuery_rounds_witness :
    (expectedCalls "standard" 0 3).get
        ⟨1, by decide⟩ = ⟨Limit, 1 * Limit, "standard"⟩ :=
  genApiQuery_rounds.2.1 "standard" 3 1 (by decide)

/-! Login (`commonLoginLogic`, lines 271-301)

The login payload is a Go `map[string]interface{}`, modelled as an
association list of `PValue` (strings, bools, and opaque extra values)
with `mapSet` as map update.  The single `apiCall` issued is recorded as
an `IssuedCall`, and the HTTP exchange is the oracle `respond`. -/

inductive PValue where
  | str (s : String)
  | bool (b : Bool)
  | other (n : Nat)
deriving DecidableEq

/-- The arguments `commonLoginLogic` passes to `apiCall` (line 288). -/
structure IssuedCall where
  command : String
  payload : List (String × PValue)
  sid : String
  waitForTask : Bool
  useProxy : Bool
  internal : Bool
deriving DecidableEq

structure LoginClient where
  context : String
  sid : String
  domain : String
  apiVersion : String
  isProxyUsed : Bool
deriving DecidableEq

/-- Lines 283-285: `for k, v := range payload { credentials[k] = v }`. -/
def mergePayload (credentials : List (String × PValue)) (payload : List (String × PValue)) :
    List (String × PValue) :=
  payload.foldl (fun acc kv => mapSet acc kv.1 kv.2) credentials

/-- Lines 273-276: in the web context, add the `continue-last-session` and
`read-only` flags to the credentials. -/
def loginFlagged (c : LoginClient) (credentials : List (String × PValue))
    (continueLastSession : Bool) (readOnly : Bool) : List (String × PValue) :=
  if c.context = WebContext then
    mapSet (mapSet credentials "continue-last-session" (PValue.bool continueLastSession))
      "read-only" (PValue.bool readOnly)
  else credentials

/-- Lines 278-280: add the `domain` field when a domain was given. -/
def loginWithDomain (domain : String) (credentials : List (String × PValue)) :
    List (String × PValue) :=
  if domain ≠ "" then mapSet credentials "domain" (PValue.str domain) else credentials

/-- Lines 273-286: build the credentials map actually sent. -/
def loginCredentials (c : LoginClient) (credentials : List (String × PValue))
    (continueLastSession : Bool) (domain : String) (readOnly : Bool)
    (payload : List (String × PValue)) : List (String × PValue) :=
  mergePayload (loginWithDomain domain (loginFlagged c credentials continueLastSession readOnly))
    payload

/-- Line 288: `c.apiCall("login", credentials, "", false, c.IsProxyUsed(), true)`. -/
def loginCall (c : LoginClient) (credentials : List (String × PValue))
    (continueLastSession : Bool) (domain : String) (readOnly : Bool)
    (payload : List (String × PValue)) : IssuedCall :=
  ⟨"login", loginCredentials c credentials continueLastSession domain readOnly payload,
    "", false, c.isProxyUsed, true⟩

/-- The function `commonLoginLogic` (lines 271-301): issue the login call; on a
successful response store the returned session id, the domain argument,
and - when no API version was configured - the server-reported version. -/
def commonLoginLogic (c : LoginClient) (credentials : List (String × PValue))
    (continueLastSession : Bool) (domain : String) (readOnly : Bool)
    (payload : List (String × PValue)) (respond : IssuedCall → Except String APIResponse) :
    Except String APIResponse × LoginClient :=
  match respond (loginCall c credentials continueLastSession domain readOnly payload) with
  | Except.error e => (Except.error e, c)
  | Except.ok loginRes =>
    if loginRes.Success then
      (Except.ok loginRes,
        { c with
          sid := loginRes.data.sid.getD ""
          domain := domain
          apiVersion :=
            if c.apiVersion = "" then loginRes.data.apiServerVersion.getD ""
            else c.apiVersion })
    else (Except.ok loginRes, c)

theorem lookupCons_self {α : Type} (k : String) (v : α) (rest : List (String × α)) :
    ((k, v) :: rest).lookup k = some v := by
  simp [List.lookup]

theorem lookupCons_ne {α : Type} (k other : String) (v : α) (rest : List (String × α))
    (h : other ≠ k) : ((k, v) :: rest).lookup other = rest.lookup other := by
  have hb : (other == k) = false := beq_eq_false_iff_ne.mpr h
  simp [List.lookup, hb]

theorem mapSet_lookup_self {α : Type} (m : List (String × α)) (key : String) (v : α) :
    (mapSet m key v).lookup key = some v := by
  induction m with
  | nil => exact lookupCons_self key v []
  | cons kv rest ih =>
    rcases kv with ⟨k, w⟩
    by_cases hk : k = key
    · simp only [mapSet, if_pos hk]
      exact lookupCons_self key v rest
    · simp only [mapSet, if_neg hk]
      rw [lookupCons_ne k key w _ (fun h => hk h.symm)]
      exact ih

theorem mapSet_lookup_ne {α : Type} (m : List (String × α)) (key other : String) (v : α)
    (h : other ≠ key) : (mapSet m key v).lookup other = m.lookup other := by
  induction m with
  | nil =>
    simp only [mapSet]
    rw [lookupCons_ne key other v [] h]
  | cons kv rest ih =>
    rcases kv with ⟨k, w⟩
    by_cases hk : k = key
    · simp only [mapSet, if_pos hk]
      rw [lookupCons_ne key other v rest h,
        lookupCons_ne k other w rest (fun hh => h (hh.trans hk))]
    · simp only [mapSet, if_neg hk]
      by_cases ho : other = k
      · rw [ho, lookupCons_self, lookupCons_self]
      · rw [lookupCons_ne k other w _ ho, lookupCons_ne k other w rest ho]
        exact ih

theorem mergePayload_lookup_none (payload : List (String × PValue)) :
    ∀ (credentials : List (String × PValue)) (key : String), payload.lookup key = none →
      (mergePayload credentials payload).lookup key = credentials.lookup key := by
  induction payload with
  | nil => intro credentials key _; rfl
  | cons kv rest ih =>
    intro credentials key hk
    rcases kv with ⟨k, v⟩
    by_cases hkk : key = k
    · rw [hkk, lookupCons_self] at hk
      exact absurd hk (by simp)
    · rw [lookupCons_ne k key v rest hkk] at hk
      have hmp : mergePayload credentials ((k, v) :: rest) =
          mergePayload (mapSet credentials k v) rest := rfl
      rw [hmp, ih (mapSet credentials k v) key hk, mapSet_lookup_ne credentials k key v hkk]

theorem lookup_eq_none_of_not_mem_keys {α : Type} (m : List (String × α)) (key : String)
    (h : key ∉ m.map Prod.fst) : m.lookup key = none := by
  induction m with
  | nil => rfl
  | cons kv rest ih =>
    rcases kv with ⟨k, v⟩
    simp only [List.map_cons, List.mem_cons] at h
    push_neg at h
    rw [lookupCons_ne k key v rest (by simpa using h.1)]
    exact ih h.2

theorem mergePayload_lookup_some (payload : List (String × PValue)) :
    ∀ (credentials : List (String × PValue)) (key : String) (v : PValue),
      (payload.map Prod.fst).Nodup → payload.lookup key = some v →
      (mergePayload credentials payload).lookup key = some v := by
  induction payload with
  | nil => intro _ _ _ _ hk; exact Option.noConfusion hk
  | cons kv rest ih =>
    intro credentials key v hnd hk
    rcases kv with ⟨k, w⟩
    simp only [List.map_cons, List.nodup_cons] at hnd
    have hmp : mergePayload credentials ((k, w) :: rest) =
        mergePayload (mapSet credentials k w) rest := rfl
    by_cases hkk : key = k
    · rw [hkk, lookupCons_self] at hk
      have hrest : rest.lookup key = none := by
        rw [hkk]
        exact lookup_eq_none_of_not_mem_keys rest k hnd.1
      rw [hmp, mergePayload_lookup_none rest (mapSet credentials k w) key hrest, hkk,
        mapSet_lookup_self]
      exact hk
    · rw [lookupCons_ne k key w rest hkk] at hk
      rw [hmp]
      exact ih (mapSet credentials k w) key v hnd.2 hk

theorem loginWithDomain_lookup_ne (domain : String) (m : List (String × PValue)) (key : String)
    (h : key ≠ "domain") : (loginWithDomain domain m).lookup key = m.lookup key := by
  rw [loginWithDomain]
  by_cases hd : domain ≠ ""
  · rw [if_pos hd, mapSet_lookup_ne m "domain" key _ h]
  · rw [if_neg hd]

def loginOkResp : APIResponse :=
  { Success := true, StatusCode := "200", ErrorMsg := "",
    data := { sid := some "SID-1", apiServerVersion := some "1.8" } }

def loginClient0 : LoginClient := ⟨WebContext, "", "", "", false⟩

/-- Counterexample to claim C5: the login call is issued with
`waitForTask = false` (line 288 passes `false` as the fourth argument of
`apiCall`), so "the call is issued with task-waiting enabled" is false for
this concrete login invocation. -/
theorem login_issues_without_task_waiting :
    (loginCall loginClient0 [("user", PValue.str "admin")] false "" false []).waitForTask = false := by
  decide

/-- Claim C5 (amended): for every login invocation the credentials are
merged with the continue-session/read-only flags (exactly in the web
protocol context), the domain when non-empty, and the extra payload
fields (payload entries overriding); the call is issued as the `login`
command with empty sid override, task-waiting DISABLED, and the
auto-publish gate bypassed (`internal = true`); and on a successful
response the client stores the returned session id and the domain and
adopts the server-reported API version exactly when none was
configured. -/
theorem commonLoginLogic_spec (c : LoginClient) (credentials : List (String × PValue))
    (continueLastSession : Bool) (domain : String) (readOnly : Bool)
    (payload : List (String × PValue)) (respond : IssuedCall → Except String APIResponse) :
    ((loginCall c credentials continueLastSession domain readOnly payload).command = "login" ∧
      (loginCall c credentials continueLastSession domain readOnly payload).sid = "" ∧
      (loginCall c credentials continueLastSession domain readOnly payload).waitForTask = false ∧
      (loginCall c credentials continueLastSession domain readOnly payload).internal = true ∧
      (loginCall c credentials continueLastSession domain readOnly payload).useProxy =
        c.isProxyUsed) ∧
    (c.context = WebContext → payload.lookup "continue-last-session" = none →
      (loginCall c credentials continueLastSession domain readOnly payload).payload.lookup
        "continue-last-session" = some (PValue.bool continueLastSession)) ∧
    (c.context = WebContext → payload.lookup "read-only" = none →
      (loginCall c credentials continueLastSession domain readOnly payload).payload.lookup
        "read-only" = some (PValue.bool readOnly)) ∧
    (c.context ≠ WebContext → payload.lookup "continue-last-session" = none →
      credentials.lookup "continue-last-session" = none →
      (loginCall c credentials continueLastSession domain readOnly payload).payload.lookup
        "continue-last-session" = none) ∧
    (domain ≠ "" → payload.lookup "domain" = none →
      (loginCall c credentials continueLastSession domain readOnly payload).payload.lookup
        "domain" = some (PValue.str domain)) ∧
    ((payload.map Prod.fst).Nodup → ∀ key v, payload.lookup key = some v →
      (loginCall c credentials continueLastSession domain readOnly payload).payload.lookup
        key = some v) ∧
    (∀ r, respond (loginCall c credentials continueLastSession domain readOnly payload) =
        Except.ok r → r.Success = true →
      (commonLoginLogic c credentials continueLastSession domain readOnly payload respond).2.sid =
          r.data.sid.getD "" ∧
      (commonLoginLogic c credentials continueLastSession domain readOnly payload respond).2.domain =
          domain ∧
      (commonLoginLogic c credentials continueLastSession domain readOnly payload
          respond).2.apiVersion =
        (if c.apiVersion = "" then r.data.apiServerVersion.getD "" else c.apiVersion) ∧
      (commonLoginLogic c credentials continueLastSession domain readOnly payload respond).1 =
        Except.ok r) := by
  refine ⟨⟨rfl, rfl, rfl, rfl, rfl⟩, ?_, ?_, ?_, ?_, ?_, ?_⟩
  · intro hctx hp
    show (loginCredentials c credentials continueLastSession domain readOnly payload).lookup
      "continue-last-session" = some (PValue.bool continueLastSession)
    rw [loginCredentials, mergePayload_lookup_none payload _ _ hp,
      loginWithDomain_lookup_ne _ _ _ (by decide), loginFlagged, if_pos hctx,
      mapSet_lookup_ne _ _ _ _ (by decide), mapSet_lookup_self]
  · intro hctx hp
    show (loginCredentials c credentials continueLastSession domain readOnly payload).lookup
      "read-only" = some (PValue.bool readOnly)
    rw [loginCredentials, mergePayload_lookup_none payload _ _ hp,
      loginWithDomain_lookup_ne _ _ _ (by decide), loginFlagged, if_pos hctx,
      mapSet_lookup_self]
  · intro hctx hp hc
    show (loginCredentials c credentials continueLastSession domain readOnly payload).lookup
      "continue-last-session" = none
    rw [loginCredentials, mergePayload_lookup_none payload _ _ hp,
      loginWithDomain_lookup_ne _ _ _ (by decide), loginFlagged, if_neg hctx, hc]
  · intro hd hp
    show (loginCredentials c credentials continueLastSession domain readOnly payload).lookup
      "domain" = some (PValue.str domain)
    rw [loginCredentials, mergePayload_lookup_none payload _ _ hp,
      loginWithDomain, if_pos hd, mapSet_lookup_self]
  · intro hnd key v hk
    show (loginCredentials c credentials continueLastSession domain readOnly payload).lookup
      key = some v
    rw [loginCredentials]
    exact mergePayload_lookup_some payload _ key v hnd hk
  · intro r hr hs
    simp [commonLoginLogic, hr, hs]

def loginWitnessPayload : List (String × PValue) := [("session-timeout", PValue.other 0)]

theorem commonLoginLogic_spec_witness :
    loginClient0.context = WebContext ∧
      (loginCall loginClient0 [("user", PValue.str "admin")] true "dom1" false
        loginWitnessPayload).payload.lookup "continue-last-session" =
          some (PValue.bool true) :=
  ⟨rfl, (commonLoginLogic_spec loginClient0 [("user", PValue.str "admin")] true "dom1" false
    loginWitnessPayload (fun _ => Except.ok loginOkResp)).2.1 rfl (by decide)⟩

/-! Fingerprint store (`CheckFingerprint` and friends, lines 804-974)

The client state kept by the fingerprint code: the relevant `ApiClient`
fields plus the contents of `fingerprints.json` as a map (the file always
exists and parses in this embedding: I/O failures are not modelled).  The
certificate probed from the live server (`getFingerprint`, defined in a
source file not provided here) and the interactive yes/no answer are
parameters.  Every operation returns its result, the new state, and how
many file writes it performed. -/

structure FpClient where
  server : String
  fingerprint : String
  ignoreServerCertificate : Bool
  acceptServerCertificate : Bool
  fpFile : String → Option String

/-- Go `strings.Replace(s, ":", "", -1)`. -/
def stripColons (s : String) : String :=
  (s.toList.filter (fun ch => ch ≠ ':')).asString

/-- The function `fpFileToMap` (lines 885-909): read and parse `fingerprints.json`. -/
def fpFileToMap (c : FpClient) : String → Option String := c.fpFile

def fpUpdate (file : String → Option String) (key val : String) : String → Option String :=
  fun k => if k = key then some val else file k

/-- The function `saveFingerprintToFile` (lines 923-950).  Note the code reads and
writes the entry of `c.server`; the `server` parameter is unused, exactly
as in the source. -/
def saveFingerprintToFile (c : FpClient) (server fingerprint : String) : FpClient × Nat :=
  match fpFileToMap c c.server with
  | some val =>
    if val = fingerprint then (c, 0)
    else ({ c with fpFile := fpUpdate c.fpFile c.server fingerprint }, 1)
  | none => ({ c with fpFile := fpUpdate c.fpFile c.server fingerprint }, 1)

/-- The function `loadFingerprintFromFile` (lines 857-876): return the stored
fingerprint; on first contact store and return the configured one. -/
def loadFingerprintFromFile (c : FpClient) : String × FpClient × Nat :=
  match fpFileToMap c c.server with
  | some val => (val, c, 0)
  | none =>
    (c.fingerprint, (saveFingerprintToFile c c.server c.fingerprint).1,
      (saveFingerprintToFile c c.server c.fingerprint).2)

/-- The function `CheckFingerprint` (lines 804-855).  `serverFp` is the fingerprint
probed from the live server (line 817) and `userAnswer` the interactive
answer of `askYesOrNoQuestion` (line 843).  Returns the trust decision,
the new client state, and the number of file writes. -/
def CheckFingerprint (c : FpClient) (serverFp : String) (userAnswer : Bool) :
    Bool × FpClient × Nat :=
  if c.ignoreServerCertificate then (true, c, 0)
  else
    if (loadFingerprintFromFile c).2.1.fingerprint = serverFp then
      (true, (loadFingerprintFromFile c).2.1, (loadFingerprintFromFile c).2.2)
    else if (loadFingerprintFromFile c).1 = "" ∨
        stripColons (loadFingerprintFromFile c).1 ≠ stripColons serverFp then
      if serverFp = "" then (false, (loadFingerprintFromFile c).2.1, (loadFingerprintFromFile c).2.2)
      else if (loadFingerprintFromFile c).2.1.acceptServerCertificate then
        (true,
          (saveFingerprintToFile (loadFingerprintFromFile c).2.1
            (loadFingerprintFromFile c).2.1.server
            (loadFingerprintFromFile c).2.1.fingerprint).1,
          (loadFingerprintFromFile c).2.2 +
            (saveFingerprintToFile (loadFingerprintFromFile c).2.1
              (loadFingerprintFromFile c).2.1.server
              (loadFingerprintFromFile c).2.1.fingerprint).2)
      else if userAnswer then
        (true,
          { (saveFingerprintToFile (loadFingerprintFromFile c).2.1
              (loadFingerprintFromFile c).2.1.server serverFp).1 with fingerprint := serverFp },
          (loadFingerprintFromFile c).2.2 +
            (saveFingerprintToFile (loadFingerprintFromFile c).2.1
              (loadFingerprintFromFile c).2.1.server serverFp).2)
      else (false, (loadFingerprintFromFile c).2.1, (loadFingerprintFromFile c).2.2)
    else (true, { (loadFingerprintFromFile c).2.1 with fingerprint := serverFp },
      (loadFingerprintFromFile c).2.2)

/-- Lowercase a string character by character. -/
def lowerString (s : String) : String := (s.toList.map Char.toLower).asString

/-- The spec's comparison, following its words: "for every pair of
fingerprint strings equal after removing colons and normalizing case,
verification treats them as identical" (refinement definition, to be
compared with the code's comparison). -/
def specCaseInsensitiveMatch (a b : String) : Bool :=
  lowerString (stripColons a) == lowerString (stripColons b)

/-- A client whose stored fingerprint differs from the probed one only in
letter case (after colon removal). -/
def mitmCaseClient : FpClient :=
  { server := "mgmt", fingerprint := "zz", ignoreServerCertificate := false,
    acceptServerCertificate := false,
    fpFile := fun k => if k = "mgmt" then some "AA:BB" else none }

/-- Counterexample to claim C4: `"AA:BB"` and `"aabb"` are equal after
removing colons and normalizing case, yet `CheckFingerprint` (which only
strips colons, line 826, and compares case-sensitively) reports a
mismatch and - with auto-accept off and the prompt refused - returns an
untrusted verdict. -/
theorem checkFingerprint_not_case_insensitive :
    specCaseInsensitiveMatch "AA:BB" "aabb" = true ∧
      (CheckFingerprint mitmCaseClient "aabb" false).1 = false := by
  decide

/-- Claim C4 (amended): the comparison between the locally recorded
fingerprint and the probed server fingerprint declares a match whenever
the two differ only in colon separators: for every pair equal after
removing colons (case-SENSITIVE comparison), with a non-empty local
record, verification trusts the server. -/
theorem checkFingerprint_colon_insensitive (c : FpClient) (serverFp : String) (ans : Bool)
    (hne : (loadFingerprintFromFile c).1 ≠ "")
    (hstrip : stripColons (loadFingerprintFromFile c).1 = stripColons serverFp) :
    (CheckFingerprint c serverFp ans).1 = true := by
  rw [CheckFingerprint]
  by_cases hig : c.ignoreServerCertificate
  · rw [if_pos hig]
  · rw [if_neg hig]
    by_cases hfp : (loadFingerprintFromFile c).2.1.fingerprint = serverFp
    · rw [if_pos hfp]
    · rw [if_neg hfp, if_neg]
      rintro (h1 | h2)
      · exact hne h1
      · exact h2 hstrip

def colonClient : FpClient :=
  { server := "srv", fingerprint := "q", ignoreServerCertificate := false,
    acceptServerCertificate := false,
    fpFile := fun k => if k = "srv" then some "ab:cd" else none }

theorem checkFingerprint_colon_insensitive_witness :
    (loadFingerprintFromFile colonClient).1 ≠ "" ∧
      (CheckFingerprint colonClient "abcd" false).1 = true :=
  ⟨by decide, checkFingerprint_colon_insensitive colonClient "abcd" false (by decide) (by decide)⟩

/-! The fingerprint phase of `apiCall` (lines 329-350) -/

def isValidHTTPMethod (method : String) : Bool :=
  ["GET", "POST", "PUT", "DELETE"].contains method

inductive ApiCallOutcome where
  | methodError (m : String)
  | probeError (e : String)
  | fpMismatchError
  | sent
deriving DecidableEq

/-- What the beginning of `apiCall` did: its outcome, the client state
afterwards, the value of the client's fingerprint field at the moment
`CheckFingerprint` ran (`none` when it never ran), and whether the HTTP
request was reached. -/
structure ApiCallTrace where
  outcome : ApiCallOutcome
  client : FpClient
  fingerprintAtCheck : Option String
  requestSent : Bool

/-- Lines 338-350: probe the live certificate (`getFingerprint`, the
`probe` parameter, also used for the probe inside `CheckFingerprint` -
both target the same server and port within one call), overwrite
`c.fingerprint` with the probed value, then run the trust check. -/
def apiCallProbePhase (c : FpClient) (probe : Except String String) (userAnswer : Bool) :
    ApiCallTrace :=
  match probe with
  | Except.error e => ⟨ApiCallOutcome.probeError e, c, none, false⟩
  | Except.ok fp =>
    if (CheckFingerprint { c with fingerprint := fp } fp userAnswer).1 = false then
      ⟨ApiCallOutcome.fpMismatchError,
        (CheckFingerprint { c with fingerprint := fp } fp userAnswer).2.1, some fp, false⟩
    else
      ⟨ApiCallOutcome.sent,
        (CheckFingerprint { c with fingerprint := fp } fp userAnswer).2.1, some fp, true⟩

/-- Lines 329-337 followed by the probe phase: the HTTP method is
validated against the allow-list first. -/
def apiCallFingerprintPhase (c : FpClient) (method : Option String)
    (probe : Except String String) (userAnswer : Bool) : ApiCallTrace :=
  match method with
  | some m =>
    if isValidHTTPMethod m = false then ⟨ApiCallOutcome.methodError m, c, none, false⟩
    else apiCallProbePhase c probe userAnswer
  | none => apiCallProbePhase c probe userAnswer

/-- Claim C10: on every `apiCall` with a valid HTTP method, the client
probes the live server fingerprint and overwrites the configured
fingerprint field with the probed value before the trust check runs -
even when `ignoreServerCertificate` is set (in which case the call
proceeds with the probed fingerprint in place) - and a probe failure
aborts the call with the probe's error, without sending the request. -/
theorem apiCall_probe_frame (c : FpClient) (m : String)
    (hm : isValidHTTPMethod m = true) (ans : Bool) :
    (∀ e, apiCallFingerprintPhase c (some m) (Except.error e) ans =
      ⟨ApiCallOutcome.probeError e, c, none, false⟩) ∧
    (∀ fp, (apiCallFingerprintPhase c (some m) (Except.ok fp) ans).fingerprintAtCheck = some fp) ∧
    (c.ignoreServerCertificate = true → ∀ fp,
      apiCallFingerprintPhase c (some m) (Except.ok fp) ans =
        ⟨ApiCallOutcome.sent, { c with fingerprint := fp }, some fp, true⟩) := by
  refine ⟨?_, ?_, ?_⟩
  · intro e
    simp [apiCallFingerprintPhase, hm, apiCallProbePhase]
  · intro fp
    simp only [apiCallFingerprintPhase, hm]
    rw [if_neg (show ¬(true = false) from by simp), apiCallProbePhase]
    split <;> rfl
  · intro hig fp
    have hchk : CheckFingerprint { c with fingerprint := fp } fp ans =
        (true, { c with fingerprint := fp }, 0) := by
      rw [CheckFingerprint, if_pos]
      exact hig
    simp [apiCallFingerprintPhase, hm, apiCallProbePhase, hchk]

def ignoringClient : FpClient :=
  { server := "srv", fingerprint := "old", ignoreServerCertificate := true,
    acceptServerCertificate := false, fpFile := fun _ => none }

theorem apiCall_probe_frame_witness :
    isValidHTTPMethod "POST" = true ∧
      (apiCallFingerprintPhase ignoringClient (some "POST") (Except.ok "newfp")
        true).fingerprintAtCheck = some "newfp" :=
  ⟨by decide, (apiCall_probe_frame ignoringClient "POST" (by decide) true).2.1 "newfp"⟩

/-! Idempotence of fingerprint verification -/

theorem fpUpdate_self (file : String → Option String) (key val : String) :
    fpUpdate file key val key = some val := by
  simp [fpUpdate]

theorem load_mem (c : FpClient) (v : String) (h : c.fpFile c.server = some v) :
    loadFingerprintFromFile c = (v, c, 0) := by
  simp [loadFingerprintFromFile, fpFileToMap, h]

theorem load_not_mem (c : FpClient) (h : c.fpFile c.server = none) :
    loadFingerprintFromFile c =
      (c.fingerprint, { c with fpFile := fpUpdate c.fpFile c.server c.fingerprint }, 1) := by
  simp [loadFingerprintFromFile, saveFingerprintToFile, fpFileToMap, h]

theorem save_stored (c : FpClient) (s fp : String) (h : c.fpFile c.server = some fp) :
    saveFingerprintToFile c s fp = (c, 0) := by
  simp [saveFingerprintToFile, fpFileToMap, h]

theorem save_write_some (c : FpClient) (s fp v : String) (h : c.fpFile c.server = some v)
    (hv : v ≠ fp) :
    saveFingerprintToFile c s fp = ({ c with fpFile := fpUpdate c.fpFile c.server fp }, 1) := by
  simp [saveFingerprintToFile, fpFileToMap, h, hv]

/-- Evaluate one `CheckFingerprint` call given the result of the load. -/
theorem checkFingerprint_eval (c : FpClient) (serverFp : String) (ans : Bool)
    (localFp : String) (c1 : FpClient) (w1 : Nat)
    (hload : loadFingerprintFromFile c = (localFp, c1, w1))
    (hig : c.ignoreServerCertificate = false) :
    CheckFingerprint c serverFp ans =
      (if c1.fingerprint = serverFp then (true, c1, w1)
       else if localFp = "" ∨ stripColons localFp ≠ stripColons serverFp then
         if serverFp = "" then (false, c1, w1)
         else if c1.acceptServerCertificate then
           (true, (saveFingerprintToFile c1 c1.server c1.fingerprint).1,
             w1 + (saveFingerprintToFile c1 c1.server c1.fingerprint).2)
         else if ans then
           (true,
             { (saveFingerprintToFile c1 c1.server serverFp).1 with fingerprint := serverFp },
             w1 + (saveFingerprintToFile c1 c1.server serverFp).2)
         else (false, c1, w1)
       else (true, { c1 with fingerprint := serverFp }, w1)) := by
  unfold CheckFingerprint
  rw [if_neg (show ¬(c.ignoreServerCertificate = true) from by simp [hig]), hload]

/-- Claim C9: fingerprint verification is idempotent: for every client
state (whatever the trust-file contents), probed server fingerprint and
interactive answer, running `CheckFingerprint` twice with the same probed
fingerprint yields the same trust decision both times, and the second run
performs no file write at all. -/
theorem checkFingerprint_idempotent (c : FpClient) (serverFp : String) (ans : Bool) :
    (CheckFingerprint (CheckFingerprint c serverFp ans).2.1 serverFp ans).1 =
      (CheckFingerprint c serverFp ans).1 ∧
    (CheckFingerprint (CheckFingerprint c serverFp ans).2.1 serverFp ans).2.2 = 0 := by
  by_cases hig : c.ignoreServerCertificate = true
  · have h1 : CheckFingerprint c serverFp ans = (true, c, 0) := by
      unfold CheckFingerprint
      rw [if_pos hig]
    simp [h1]
  · have hig2 : c.ignoreServerCertificate = false := by
      revert hig
      cases c.ignoreServerCertificate <;> simp
    rcases hf : c.fpFile c.server with _ | v
    · -- first contact: the load bootstraps the file with the configured fingerprint
      have hload : loadFingerprintFromFile c =
          (c.fingerprint, { c with fpFile := fpUpdate c.fpFile c.server c.fingerprint }, 1) :=
        load_not_mem c hf
      have hload2 : loadFingerprintFromFile
            { c with fpFile := fpUpdate c.fpFile c.server c.fingerprint } =
          (c.fingerprint, { c with fpFile := fpUpdate c.fpFile c.server c.fingerprint }, 0) :=
        load_mem _ _ (by simp [fpUpdate])
      by_cases hfp : c.fingerprint = serverFp
      · have h1 : CheckFingerprint c serverFp ans =
            (true, { c with fpFile := fpUpdate c.fpFile c.server c.fingerprint }, 1) := by
          rw [checkFingerprint_eval c serverFp ans _ _ _ hload hig2, if_pos hfp]
        have h2 : CheckFingerprint { c with fpFile := fpUpdate c.fpFile c.server c.fingerprint }
              serverFp ans =
            (true, { c with fpFile := fpUpdate c.fpFile c.server c.fingerprint }, 0) := by
          rw [checkFingerprint_eval _ serverFp ans _ _ _ hload2 hig2, if_pos hfp]
        simp [h1, h2]
      · by_cases hcond : c.fingerprint = "" ∨ stripColons c.fingerprint ≠ stripColons serverFp
        · by_cases hsf : serverFp = ""
          · have h1 : CheckFingerprint c serverFp ans =
                (false, { c with fpFile := fpUpdate c.fpFile c.server c.fingerprint }, 1) := by
              rw [checkFingerprint_eval c serverFp ans _ _ _ hload hig2, if_neg hfp,
                if_pos hcond, if_pos hsf]
            have h2 : CheckFingerprint
                  { c with fpFile := fpUpdate c.fpFile c.server c.fingerprint } serverFp ans =
                (false, { c with fpFile := fpUpdate c.fpFile c.server c.fingerprint }, 0) := by
              rw [checkFingerprint_eval _ serverFp ans _ _ _ hload2 hig2, if_neg hfp,
                if_pos hcond, if_pos hsf]
            simp [h1, h2]
          · by_cases hacc : c.acceptServerCertificate = true
            · have hsave : saveFingerprintToFile
                    { c with fpFile := fpUpdate c.fpFile c.server c.fingerprint }
                    ({ c with fpFile := fpUpdate c.fpFile c.server c.fingerprint } : FpClient).server
                    ({ c with fpFile := fpUpdate c.fpFile c.server c.fingerprint } : FpClient).fingerprint =
                  ({ c with fpFile := fpUpdate c.fpFile c.server c.fingerprint }, 0) :=
                save_stored _ _ _ (by simp [fpUpdate])
              have h1 : CheckFingerprint c serverFp ans =
                  (true, { c with fpFile := fpUpdate c.fpFile c.server c.fingerprint }, 1) := by
                rw [checkFingerprint_eval c serverFp ans _ _ _ hload hig2, if_neg hfp,
                  if_pos hcond, if_neg hsf, if_pos hacc, hsave]
                rfl
              have h2 : CheckFingerprint
                    { c with fpFile := fpUpdate c.fpFile c.server c.fingerprint } serverFp ans =
                  (true, { c with fpFile := fpUpdate c.fpFile c.server c.fingerprint }, 0) := by
                rw [checkFingerprint_eval _ serverFp ans _ _ _ hload2 hig2, if_neg hfp,
                  if_pos hcond, if_neg hsf, if_pos hacc, hsave]
                rfl
              simp [h1, h2]
            · by_cases hans : ans = true
              · have hsave : saveFingerprintToFile
                      { c with fpFile := fpUpdate c.fpFile c.server c.fingerprint }
                      ({ c with fpFile := fpUpdate c.fpFile c.server c.fingerprint } : FpClient).server
                      serverFp =
                    ({ c with fpFile :=
                        fpUpdate (fpUpdate c.fpFile c.server c.fingerprint) c.server serverFp }, 1) :=
                  save_write_some _ _ serverFp c.fingerprint (by simp [fpUpdate]) hfp
                have h1 : CheckFingerprint c serverFp ans =
                    (true, { c with fingerprint := serverFp, fpFile := fpUpdate (fpUpdate c.fpFile c.server c.fingerprint) c.server serverFp }, 2) := by
                  rw [checkFingerprint_eval c serverFp ans _ _ _ hload hig2, if_neg hfp,
                    if_pos hcond, if_neg hsf, if_neg hacc, if_pos hans, hsave]
                  rfl
                have hload3 : loadFingerprintFromFile
                      { c with fingerprint := serverFp, fpFile := fpUpdate (fpUpdate c.fpFile c.server c.fingerprint) c.server serverFp } =
                    (serverFp, { c with fingerprint := serverFp, fpFile := fpUpdate (fpUpdate c.fpFile c.server c.fingerprint) c.server serverFp }, 0) :=
                  load_mem _ _ (by simp [fpUpdate])
                have h2 : CheckFingerprint
                      { c with fingerprint := serverFp, fpFile := fpUpdate (fpUpdate c.fpFile c.server c.fingerprint) c.server serverFp } serverFp ans =
                    (true, { c with fingerprint := serverFp, fpFile := fpUpdate (fpUpdate c.fpFile c.server c.fingerprint) c.server serverFp }, 0) := by
                  rw [checkFingerprint_eval _ serverFp ans _ _ _ hload3 hig2, if_pos rfl]
                simp [h1, h2]
              · have h1 : CheckFingerprint c serverFp ans =
                    (false, { c with fpFile := fpUpdate c.fpFile c.server c.fingerprint }, 1) := by
                  rw [checkFingerprint_eval c serverFp ans _ _ _ hload hig2, if_neg hfp,
                    if_pos hcond, if_neg hsf, if_neg hacc, if_neg hans]
                have h2 : CheckFingerprint
                      { c with fpFile := fpUpdate c.fpFile c.server c.fingerprint } serverFp ans =
                    (false, { c with fpFile := fpUpdate c.fpFile c.server c.fingerprint }, 0) := by
                  rw [checkFingerprint_eval _ serverFp ans _ _ _ hload2 hig2, if_neg hfp,
                    if_pos hcond, if_neg hsf, if_neg hacc, if_neg hans]
                simp [h1, h2]
        · -- colon-stripped match: the fingerprint field is adopted, no save
          have h1 : CheckFingerprint c serverFp ans =
              (true,
                { c with fingerprint := serverFp, fpFile := fpUpdate c.fpFile c.server c.fingerprint }, 1) := by
            rw [checkFingerprint_eval c serverFp ans _ _ _ hload hig2, if_neg hfp, if_neg hcond]
          have hload3 : loadFingerprintFromFile
                { c with fingerprint := serverFp, fpFile := fpUpdate c.fpFile c.server c.fingerprint } =
              (c.fingerprint,
                { c with fingerprint := serverFp, fpFile := fpUpdate c.fpFile c.server c.fingerprint }, 0) :=
            load_mem _ _ (by simp [fpUpdate])
          have h2 : CheckFingerprint
                { c with fingerprint := serverFp, fpFile := fpUpdate c.fpFile c.server c.fingerprint } serverFp ans =
              (true,
                { c with fingerprint := serverFp, fpFile := fpUpdate c.fpFile c.server c.fingerprint }, 0) := by
            rw [checkFingerprint_eval _ serverFp ans _ _ _ hload3 hig2, if_pos rfl]
          simp [h1, h2]
    · -- the server already has a record in the file
      have hload : loadFingerprintFromFile c = (v, c, 0) := load_mem c v hf
      by_cases hfp : c.fingerprint = serverFp
      · have h1 : CheckFingerprint c serverFp ans = (true, c, 0) := by
          rw [checkFingerprint_eval c serverFp ans _ _ _ hload hig2, if_pos hfp]
        simp [h1]
      · by_cases hcond : v = "" ∨ stripColons v ≠ stripColons serverFp
        · by_cases hsf : serverFp = ""
          · have h1 : CheckFingerprint c serverFp ans = (false, c, 0) := by
              rw [checkFingerprint_eval c serverFp ans _ _ _ hload hig2, if_neg hfp,
                if_pos hcond, if_pos hsf]
            simp [h1]
          · by_cases hacc : c.acceptServerCertificate = true
            · by_cases hv : v = c.fingerprint
              · have hsave : saveFingerprintToFile c c.server c.fingerprint = (c, 0) :=
                  save_stored c _ _ (by rw [hf, hv])
                have h1 : CheckFingerprint c serverFp ans = (true, c, 0) := by
                  rw [checkFingerprint_eval c serverFp ans _ _ _ hload hig2, if_neg hfp,
                    if_pos hcond, if_neg hsf, if_pos hacc, hsave]
                  rfl
                simp [h1]
              · have hsave : saveFingerprintToFile c c.server c.fingerprint =
                    ({ c with fpFile := fpUpdate c.fpFile c.server c.fingerprint }, 1) :=
                  save_write_some c _ c.fingerprint v hf hv
                have h1 : CheckFingerprint c serverFp ans =
                    (true, { c with fpFile := fpUpdate c.fpFile c.server c.fingerprint }, 1) := by
                  rw [checkFingerprint_eval c serverFp ans _ _ _ hload hig2, if_neg hfp,
                    if_pos hcond, if_neg hsf, if_pos hacc, hsave]
                  rfl
                have hload2 : loadFingerprintFromFile
                      { c with fpFile := fpUpdate c.fpFile c.server c.fingerprint } =
                    (c.fingerprint,
                      { c with fpFile := fpUpdate c.fpFile c.server c.fingerprint }, 0) :=
                  load_mem _ _ (by simp [fpUpdate])
                have hsave2 : saveFingerprintToFile
                      { c with fpFile := fpUpdate c.fpFile c.server c.fingerprint }
                      ({ c with fpFile := fpUpdate c.fpFile c.server c.fingerprint } : FpClient).server
                      ({ c with fpFile := fpUpdate c.fpFile c.server c.fingerprint } : FpClient).fingerprint =
                    ({ c with fpFile := fpUpdate c.fpFile c.server c.fingerprint }, 0) :=
                  save_stored _ _ _ (by simp [fpUpdate])
                by_cases hcond2 : c.fingerprint = "" ∨
                    stripColons c.fingerprint ≠ stripColons serverFp
                · have h2 : CheckFingerprint
                      { c with fpFile := fpUpdate c.fpFile c.server c.fingerprint } serverFp ans =
                      (true, { c with fpFile := fpUpdate c.fpFile c.server c.fingerprint }, 0) := by
                    rw [checkFingerprint_eval _ serverFp ans _ _ _ hload2 hig2, if_neg hfp,
                      if_pos hcond2, if_neg hsf, if_pos hacc, hsave2]
                    rfl
                  simp [h1, h2]
                · have h2 : CheckFingerprint
                      { c with fpFile := fpUpdate c.fpFile c.server c.fingerprint } serverFp ans =
                      (true,
                        { c with fingerprint := serverFp, fpFile := fpUpdate c.fpFile c.server c.fingerprint }, 0) := by
                    rw [checkFingerprint_eval _ serverFp ans _ _ _ hload2 hig2, if_neg hfp,
                      if_neg hcond2]
                  simp [h1, h2]
            · by_cases hans : ans = true
              · have hvs : v ≠ serverFp := by
                  intro h
                  rcases hcond with h1 | h2
                  · exact hsf (h.symm.trans h1)
                  · exact h2 (by rw [h])
                have hsave : saveFingerprintToFile c c.server serverFp =
                    ({ c with fpFile := fpUpdate c.fpFile c.server serverFp }, 1) :=
                  save_write_some c _ serverFp v hf hvs
                have h1 : CheckFingerprint c serverFp ans =
                    (true,
                      { c with fingerprint := serverFp, fpFile := fpUpdate c.fpFile c.server serverFp }, 1) := by
                  rw [checkFingerprint_eval c serverFp ans _ _ _ hload hig2, if_neg hfp,
                    if_pos hcond, if_neg hsf, if_neg hacc, if_pos hans, hsave]
                  rfl
                have hload3 : loadFingerprintFromFile
                      { c with fingerprint := serverFp, fpFile := fpUpdate c.fpFile c.server serverFp } =
                    (serverFp,
                      { c with fingerprint := serverFp, fpFile := fpUpdate c.fpFile c.server serverFp }, 0) :=
                  load_mem _ _ (by simp [fpUpdate])
                have h2 : CheckFingerprint
                      { c with fingerprint := serverFp, fpFile := fpUpdate c.fpFile c.server serverFp } serverFp ans =
                    (true,
                      { c with fingerprint := serverFp, fpFile := fpUpdate c.fpFile c.server serverFp }, 0) := by
                  rw [checkFingerprint_eval _ serverFp ans _ _ _ hload3 hig2, if_pos rfl]
                simp [h1, h2]
              · have h1 : CheckFingerprint c serverFp ans = (false, c, 0) := by
                  rw [checkFingerprint_eval c serverFp ans _ _ _ hload hig2, if_neg hfp,
                    if_pos hcond, if_neg hsf, if_neg hacc, if_neg hans]
                simp [h1]
        · have h1 : CheckFingerprint c serverFp ans =
              (true, { c with fingerprint := serverFp }, 0) := by
            rw [checkFingerprint_eval c serverFp ans _ _ _ hload hig2, if_neg hfp, if_neg hcond]
          have hload2 : loadFingerprintFromFile { c with fingerprint := serverFp } =
              (v, { c with fingerprint := serverFp }, 0) :=
            load_mem _ _ hf
          have h2 : CheckFingerprint { c with fingerprint := serverFp } serverFp ans =
              (true, { c with fingerprint := serverFp }, 0) := by
            rw [checkFingerprint_eval _ serverFp ans _ _ _ hload2 hig2, if_pos rfl]
          simp [h1, h2]

end ChkpApi
